import Mathlib

/-!
Shallow embedding of the meddler broker core.

Sources embedded here:
- meddler-core/src/types.rs: domain types and TaskStatus::compute;
- meddler-server/src/session.rs: the SessionManager over per-name broadcast
  channels;
- meddler-mcp/src/jsonrpc.rs: the JSON-RPC envelope and error codes;
- meddler-server/src/handlers/agent.rs and handlers/mcp.rs: the worker relay,
  the MCP request handler, the tool dispatch and the SSE streams;
- meddler-server/tests/mock_stores.rs and meddler-store/src/postgres.rs: the
  registry and task-store operations the claims quantify over.

Modelling conventions: chrono DateTime values are integer milliseconds since
the epoch; uuid values are natural numbers obtained by an explicit
hexadecimal parser over the canonical hyphenated form; JSON numbers are
integers (every number the embedded code constructs or inspects is one);
the pluggable trait objects behind AppState are modelled as an environment
of result oracles, with the session-manager state explicit.
-/

namespace Meddler

/-- A JSON value, model of serde_json Value. Objects keep their fields as an
association list; numbers are restricted to integers, which covers every
value the embedded handlers build or inspect. -/
inductive Json where
  | null : Json
  | bool : Bool → Json
  | num : Int → Json
  | str : String → Json
  | arr : List Json → Json
  | obj : List (String × Json) → Json
deriving Repr

/-- Association-list lookup by key, first match wins: model of map lookup on
JSON object fields and on the in-memory HashMap stores. -/
def mapGet {κ α : Type} [DecidableEq κ] : List (κ × α) → κ → Option α
  | [], _ => none
  | (k, v) :: rest, key => if k = key then some v else mapGet rest key

/-- serde_json Value::get for an object key: Some field value on objects,
None on every other variant. -/
def Json.get (j : Json) (key : String) : Option Json :=
  match j with
  | .obj fields => mapGet fields key
  | _ => none

/-- serde_json Value::as_str. -/
def Json.asStr : Json → Option String
  | .str s => some s
  | _ => none

/-- serde_json Value::as_i64. -/
def Json.asInt : Json → Option Int
  | .num n => some n
  | _ => none

/-- serde_json Value::is_null. -/
def Json.isNull : Json → Bool
  | .null => true
  | _ => false

/-- Agent entity (meddler-core/src/types.rs). -/
structure Agent where
  id : Nat
  name : String
  description : String
  registered_at : Int
  last_seen_at : Int
deriving DecidableEq, Repr

/-- Message entity (meddler-core/src/types.rs). -/
structure Message where
  id : Nat
  sender_id : Nat
  recipient_id : Nat
  task_id : Option Nat
  content : String
  created_at : Int
deriving DecidableEq, Repr

/-- Task entity (meddler-core/src/types.rs). -/
structure Task where
  id : Nat
  title : String
  created_by : Nat
  time_budget_secs : Option Int
  started_at : Option Int
  created_at : Int
deriving DecidableEq, Repr

/-- Computed view of a task at a reference time (meddler-core/src/types.rs). -/
structure TaskStatus where
  task : Task
  elapsed_secs : Option Int
  remaining_secs : Option Int
deriving DecidableEq, Repr

/-- Parameters for creating a message (meddler-core/src/types.rs). -/
structure CreateMessage where
  sender_id : Nat
  recipient_id : Nat
  task_id : Option Nat
  content : String
deriving DecidableEq, Repr

/-- Parameters for creating a task (meddler-core/src/types.rs). -/
structure CreateTask where
  title : String
  created_by : Nat
  time_budget_secs : Option Int
deriving DecidableEq, Repr

/-- Parameters for registering an agent (meddler-core/src/types.rs). -/
structure RegisterAgent where
  name : String
  description : String
deriving DecidableEq, Repr

/-- Message query filter (meddler-core/src/types.rs). -/
structure MessageFilter where
  task_id : Option Nat
  sender_id : Option Nat
  recipient_id : Option Nat
deriving DecidableEq, Repr

/-- chrono Duration::num_seconds applied to a duration given in milliseconds:
the whole number of seconds, truncated toward zero (negative durations round
up toward zero, exactly as chrono does). -/
def numSeconds (ms : Int) : Int :=
  if 0 ≤ ms then ((ms.toNat / 1000 : Nat) : Int) else -(((-ms).toNat / 1000 : Nat) : Int)

/-- TaskStatus::compute (meddler-core/src/types.rs): elapsed whole seconds
since started_at when it is set, and budget minus elapsed clamped at zero
when both the budget and started_at are set. -/
def TaskStatus.compute (task : Task) (now : Int) : TaskStatus :=
  let elapsed_secs := task.started_at.map (fun started => numSeconds (now - started))
  let remaining_secs :=
    match elapsed_secs, task.time_budget_secs with
    | some elapsed, some budget => some (max (budget - elapsed) 0)
    | _, _ => none
  { task := task, elapsed_secs := elapsed_secs, remaining_secs := remaining_secs }

/-- C3: TaskStatus.compute yields elapsed_secs equal to the whole seconds of
now minus started_at exactly when started_at is set (unset otherwise), and
yields remaining_secs equal to max of budget minus elapsed and zero exactly
when both started_at and the budget are set (unset otherwise); whenever
remaining_secs is set it is nonnegative, while negative elapsed values pass
through unclamped. -/
theorem taskStatus_compute_spec (task : Task) (now : Int) :
    (∀ s, task.started_at = some s →
      (TaskStatus.compute task now).elapsed_secs = some (numSeconds (now - s)))
    ∧ (task.started_at = none → (TaskStatus.compute task now).elapsed_secs = none)
    ∧ (∀ s b, task.started_at = some s → task.time_budget_secs = some b →
      (TaskStatus.compute task now).remaining_secs
        = some (max (b - numSeconds (now - s)) 0))
    ∧ (task.started_at = none ∨ task.time_budget_secs = none →
      (TaskStatus.compute task now).remaining_secs = none)
    ∧ (∀ r, (TaskStatus.compute task now).remaining_secs = some r → 0 ≤ r) := by
  rcases hs : task.started_at with _ | s <;> rcases hb : task.time_budget_secs with _ | b <;>
    simp [TaskStatus.compute, hs, hb]

/-- Concrete task used to witness C3: one-hour budget, started at the epoch. -/
def c3Task : Task :=
  { id := 1, title := "t", created_by := 2, time_budget_secs := some 3600,
    started_at := some 0, created_at := 0 }

/-- Witness for C3 at a concrete input: thirty minutes and half a second into
a one-hour budget, remaining_secs evaluates to 1800. -/
theorem taskStatus_compute_spec_witness :
    (TaskStatus.compute c3Task 1800500).remaining_secs = some 1800 := by
  have h := (taskStatus_compute_spec c3Task 1800500).2.2.1 0 3600 rfl rfl
  simpa [numSeconds] using h

/-- Concrete task used to refute C8: zero budget, started 5 seconds after the
reference time (clock skew). -/
def c8Task : Task :=
  { id := 3, title := "b", created_by := 2, time_budget_secs := some 0,
    started_at := some 5000, created_at := 0 }

/-- C8 counterexample: with time_budget_secs zero and started_at five seconds
later than now, TaskStatus.compute returns remaining_secs of 5, not 0: the
negative elapsed value makes budget minus elapsed positive, so the clamp at
zero does not fire. -/
theorem taskStatus_budget_zero_counterexample :
    (TaskStatus.compute c8Task 0).remaining_secs = some 5
    ∧ (TaskStatus.compute c8Task 0).remaining_secs ≠ some 0 := by
  constructor <;> simp [TaskStatus.compute, c8Task, numSeconds]

/-- C8 amended: for every started task with time_budget_secs zero and with
started_at not later than the reference time, TaskStatus.compute returns
remaining_secs of 0. -/
theorem taskStatus_budget_zero_amended (task : Task) (now : Int) (s : Int)
    (hs : task.started_at = some s) (hb : task.time_budget_secs = some 0)
    (hle : s ≤ now) :
    (TaskStatus.compute task now).remaining_secs = some 0 := by
  have h0 : 0 ≤ numSeconds (now - s) := by
    have hms : 0 ≤ now - s := by omega
    unfold numSeconds
    rw [if_pos hms]
    exact Int.natCast_nonneg _
  have h1 : max (0 - numSeconds (now - s)) 0 = 0 := max_eq_right (by linarith)
  have h2 : max (-numSeconds (now - s)) 0 = 0 := by
    rw [← zero_sub]
    exact h1
  simp [TaskStatus.compute, hs, hb, h1, h2]

/-- Concrete task used to witness the amended C8. -/
def c8wTask : Task :=
  { id := 4, title := "w", created_by := 2, time_budget_secs := some 0,
    started_at := some 0, created_at := 0 }

/-- Witness for the amended C8 at a concrete input: zero budget, started at
the epoch, inspected 2.5 seconds later. -/
theorem taskStatus_budget_zero_amended_witness :
    (TaskStatus.compute c8wTask 2500).remaining_secs = some 0 :=
  taskStatus_budget_zero_amended c8wTask 2500 0 rfl rfl (by decide)

/-- State of the session manager (meddler-server/src/session.rs): the map
from agent name to that name's broadcast channel, each channel represented
by the number of live receivers currently attached to it (the only aspect of
a tokio broadcast channel the embedded operations inspect). -/
abbrev SessionMap := List (String × Nat)

namespace SessionManager

/-- SessionManager::subscribe: create the channel for the name if absent and
attach one more receiver; the returned Receiver handle is modelled by the
incremented receiver count. -/
def subscribe : SessionMap → String → SessionMap
  | [], name => [(name, 1)]
  | (k, n) :: rest, name =>
      if k = name then (k, n + 1) :: rest else (k, n) :: subscribe rest name

/-- SessionManager::notify: look the channel up and publish the message with
tokio broadcast send, whose result is Ok exactly when at least one live
receiver is attached; notify returns send(..).is_ok(), and false when no
channel exists for the name. -/
def notify (s : SessionMap) (name : String) (_message : Message) : Bool :=
  match mapGet s name with
  | some receivers => decide (1 ≤ receivers)
  | none => false

/-- SessionManager::is_connected: contains_key on the session map. -/
def isConnected (s : SessionMap) (name : String) : Bool :=
  (mapGet s name).isSome

/-- SessionManager::remove: drop the channel for the name. -/
def removeName : SessionMap → String → SessionMap
  | [], _ => []
  | (k, n) :: rest, name => if k = name then rest else (k, n) :: removeName rest name

/-- Dropping one receiver handle (tokio broadcast Receiver going out of
scope, as on SSE client disconnect): the channel stays in the map and its
receiver count decreases by one. -/
def dropReceiver : SessionMap → String → SessionMap
  | [], _ => []
  | (k, n) :: rest, name =>
      if k = name then (k, n - 1) :: rest else (k, n) :: dropReceiver rest name

end SessionManager

/-- Session state reached by subscribing once under the name alpha and then
dropping that only receiver: the channel is retained with zero receivers. -/
def c4State : SessionMap :=
  SessionManager.dropReceiver (SessionManager.subscribe [] "alpha") "alpha"

/-- C4 counterexample: after the only receiver for alpha is dropped while the
channel is retained, the channel has zero live receivers, yet is_connected
still returns true, where the claim requires false. -/
theorem isConnected_zero_receivers_counterexample :
    mapGet c4State "alpha" = some 0
    ∧ SessionManager.isConnected c4State "alpha" = true
    ∧ SessionManager.isConnected c4State "alpha" ≠ false := by
  refine ⟨rfl, rfl, ?_⟩
  simp [c4State, SessionManager.subscribe, SessionManager.dropReceiver,
    SessionManager.isConnected, mapGet]

/-- The channel entry subscribe creates or bumps is visible to lookup. -/
theorem mapGet_subscribe_self (s : SessionMap) (name : String) :
    ∃ receivers, mapGet (SessionManager.subscribe s name) name = some receivers := by
  induction s with
  | nil => exact ⟨1, by simp [SessionManager.subscribe, mapGet]⟩
  | cons kv rest ih =>
    obtain ⟨k, n⟩ := kv
    by_cases hk : k = name
    · exact ⟨n + 1, by simp [SessionManager.subscribe, mapGet, hk]⟩
    · obtain ⟨m, hm⟩ := ih
      exact ⟨m, by simp [SessionManager.subscribe, mapGet, hk, hm]⟩

/-- Dropping a receiver decrements the count seen by lookup and never removes
the channel entry. -/
theorem mapGet_dropReceiver (s : SessionMap) (name : String) :
    mapGet (SessionManager.dropReceiver s name) name
      = (mapGet s name).map (fun n => n - 1) := by
  induction s with
  | nil => simp [SessionManager.dropReceiver, mapGet]
  | cons kv rest ih =>
    obtain ⟨k, n⟩ := kv
    by_cases hk : k = name
    · simp [SessionManager.dropReceiver, mapGet, hk]
    · simp [SessionManager.dropReceiver, mapGet, hk, ih]

/-- C4 amended: is_connected(name) returns true exactly when a channel exists
for the name, with no condition on live receivers; in particular after the
last receiver is dropped while the channel is retained, is_connected still
returns true. -/
theorem isConnected_iff_channel_exists (s : SessionMap) (name : String) :
    (SessionManager.isConnected s name = true ↔ ∃ receivers, mapGet s name = some receivers)
    ∧ SessionManager.isConnected
        (SessionManager.dropReceiver (SessionManager.subscribe s name) name) name = true := by
  constructor
  · simp [SessionManager.isConnected, Option.isSome_iff_exists]
  · obtain ⟨m, hm⟩ := mapGet_subscribe_self s name
    simp [SessionManager.isConnected, mapGet_dropReceiver, hm]

/-- Core error kind (meddler-core/src/error.rs). -/
inductive StoreError where
  | agentNotFound : String → StoreError
  | agentNotFoundById : Nat → StoreError
  | taskNotFound : Nat → StoreError
  | database : String → StoreError
  | internal : String → StoreError
deriving DecidableEq, Repr

/-- Display rendering of the core error (the thiserror messages), as used by
the handlers via to_string. -/
def errString : StoreError → String
  | .agentNotFound n => "agent not found: " ++ n
  | .agentNotFoundById i => "agent not found by id: " ++ toString i
  | .taskNotFound i => "task not found: " ++ toString i
  | .database m => "database error: " ++ m
  | .internal m => "internal error: " ++ m

/-- The dependencies a handler sees (meddler-server/src/app_state.rs): the
three storage trait objects modelled as result oracles giving, for each call
the handler can make, the result the store returns during this request, plus
the session-manager state at the instant the handler publishes. -/
structure StoreEnv where
  getByName : String → Except StoreError Agent
  createMessage : CreateMessage → Except StoreError Message
  createTask : CreateTask → Except StoreError Task
  markStarted : Nat → Except StoreError Unit
  getStatus : Nat → Except StoreError TaskStatus
  listAgents : Except StoreError (List Agent)
  queryMessages : MessageFilter → Except StoreError (List Message)
  sessions : SessionMap

/-- One observable storage or session call made by a handler, in program
order; created m records that the message-store create returned Ok(m), and
createFailed that it returned Err. -/
inductive Ev where
  | getByName : String → Ev
  | markStarted : Nat → Ev
  | create : CreateMessage → Ev
  | created : Message → Ev
  | createFailed : Ev
  | notify : String → Message → Ev
deriving DecidableEq, Repr

/-- Value of a hexadecimal digit character, if any. -/
def hexVal (c : Char) : Option Nat :=
  if '0' ≤ c ∧ c ≤ '9' then some (c.toNat - Char.toNat '0')
  else if 'a' ≤ c ∧ c ≤ 'f' then some (c.toNat - Char.toNat 'a' + 10)
  else if 'A' ≤ c ∧ c ≤ 'F' then some (c.toNat - Char.toNat 'A' + 10)
  else none

/-- Accumulate hexadecimal digits into a number; None on a non-hex digit. -/
def hexAcc : List Char → Nat → Option Nat
  | [], acc => some acc
  | c :: rest, acc =>
    match hexVal c with
    | some d => hexAcc rest (acc * 16 + d)
    | none => none

/-- Split a character list on the hyphen character. -/
def splitDash : List Char → List (List Char)
  | [] => [[]]
  | c :: rest =>
    let parts := splitDash rest
    if c = '-' then [] :: parts
    else
      match parts with
      | p :: ps => (c :: p) :: ps
      | [] => [[c]]

/-- Model of uuid parsing from text (the external uuid crate), restricted to
the canonical hyphenated 8-4-4-4-12 hexadecimal form; anything else is
rejected. Only acceptance versus rejection matters to the embedded code. -/
def parseUuid (s : String) : Option Nat :=
  match splitDash s.toList with
  | [a, b, c, d, e] =>
    if a.length = 8 ∧ b.length = 4 ∧ c.length = 4 ∧ d.length = 4 ∧ e.length = 12 then
      hexAcc (a ++ b ++ c ++ d ++ e) 0
    else none
  | _ => none

/-- The optional task_id argument step shared by both send paths: absent maps
to Ok(None), present text parses as a uuid or fails the request (the
map(parse).transpose() step with its Invalid task_id error; the error text
here omits the formatted parse detail). -/
def parseTaskArg : Option String → Except String (Option Nat)
  | none => .ok none
  | some s =>
    match parseUuid s with
    | some u => .ok (some u)
    | none => .error "Invalid task_id"

/-- The mark_started call both send paths make when a task id is present;
its result is ignored by the code (let underscore), so only the call itself
is recorded. -/
def markTrace : Option Nat → List Ev
  | none => []
  | some tid => [Ev.markStarted tid]

/-- markTrace holds exactly the mark_started call for the present task id. -/
theorem mem_markTrace {e : Ev} {t : Option Nat} :
    e ∈ markTrace t ↔ ∃ u, t = some u ∧ e = Ev.markStarted u := by
  cases t <;> simp [markTrace]

/-- The CreateMessage record both send paths build from the resolved sender,
the resolved recipient, the parsed task id and the content. -/
def relayCreate (sender recipient : Agent) (task_id : Option Nat) (content : String) :
    CreateMessage :=
  { sender_id := sender.id, recipient_id := recipient.id, task_id := task_id,
    content := content }

/-- Request body of POST agent message (handlers/agent.rs); fromName and
toName model the fields named from and to. -/
structure AgentMessageRequest where
  fromName : String
  toName : String
  content : String
  task_id : Option String
deriving Repr

/-- The worker relay agent_message (handlers/agent.rs): resolve sender and
recipient by name (404 on either miss), parse the optional task id (400 on a
malformed uuid), mark the task started, persist through the message store
(500 on failure), then publish to the recipient via the session manager and
answer 200 with message_id and the delivered flag. Returns the ordered trace
of storage and session calls alongside the HTTP result, status paired with
body text on errors. -/
def agent_message (env : StoreEnv) (req : AgentMessageRequest) :
    List Ev × Except (Nat × String) Json :=
  match env.getByName req.fromName with
  | .error e =>
    ([Ev.getByName req.fromName], .error (404, "Sender not found: " ++ errString e))
  | .ok sender =>
    match env.getByName req.toName with
    | .error e =>
      ([Ev.getByName req.fromName, Ev.getByName req.toName],
        .error (404, "Recipient not found: " ++ errString e))
    | .ok recipient =>
      match parseTaskArg req.task_id with
      | .error msg =>
        ([Ev.getByName req.fromName, Ev.getByName req.toName], .error (400, msg))
      | .ok task_id =>
        match env.createMessage (relayCreate sender recipient task_id req.content) with
        | .error e =>
          (([Ev.getByName req.fromName, Ev.getByName req.toName] ++ markTrace task_id)
              ++ [Ev.create (relayCreate sender recipient task_id req.content),
                Ev.createFailed],
            .error (500, errString e))
        | .ok message =>
          (([Ev.getByName req.fromName, Ev.getByName req.toName] ++ markTrace task_id)
              ++ [Ev.create (relayCreate sender recipient task_id req.content),
                Ev.created message, Ev.notify req.toName message],
            .ok (Json.obj [("message_id", Json.str (toString message.id)),
              ("delivered",
                Json.bool (SessionManager.notify env.sessions req.toName message))]))

/-- The reserved orchestrator pseudo-agent name (handlers/mcp.rs). -/
def orchestratorName : String := "__orchestrator__"

/-- The send_message tool (handlers/mcp.rs tool_send_message): require the
to and content string arguments, parse the optional task_id argument, resolve
the orchestrator as sender and the recipient by name, mark the task started,
persist through the message store, then publish to the recipient and return
message_id plus the delivered flag; any failure is the tool-level Err string.
Returns the ordered trace of storage and session calls alongside the result.
The error texts omit the quote marks and formatted details of the source
messages. -/
def tool_send_message (env : StoreEnv) (args : Json) :
    List Ev × Except String Json :=
  match (args.get "to").bind Json.asStr with
  | none => ([], .error "Missing to parameter")
  | some toName =>
    match (args.get "content").bind Json.asStr with
    | none => ([], .error "Missing content parameter")
    | some content =>
      match parseTaskArg ((args.get "task_id").bind Json.asStr) with
      | .error msg => ([], .error msg)
      | .ok task_id =>
        match env.getByName orchestratorName with
        | .error e => ([Ev.getByName orchestratorName], .error (errString e))
        | .ok sender =>
          match env.getByName toName with
          | .error e =>
            ([Ev.getByName orchestratorName, Ev.getByName toName],
              .error ("Recipient agent not found: " ++ errString e))
          | .ok recipient =>
            match env.createMessage (relayCreate sender recipient task_id content) with
            | .error e =>
              (([Ev.getByName orchestratorName, Ev.getByName toName] ++ markTrace task_id)
                  ++ [Ev.create (relayCreate sender recipient task_id content),
                    Ev.createFailed],
                .error (errString e))
            | .ok message =>
              (([Ev.getByName orchestratorName, Ev.getByName toName] ++ markTrace task_id)
                  ++ [Ev.create (relayCreate sender recipient task_id content),
                    Ev.created message, Ev.notify toName message],
                .ok (Json.obj [("message_id", Json.str (toString message.id)),
                  ("delivered",
                    Json.bool (SessionManager.notify env.sessions toName message))]))

/-- Every publish of a message in the trace is preceded by the successful
persist of that same message. -/
def publishAfterPersist (tr : List Ev) : Prop :=
  ∀ i name m, tr.get? i = some (Ev.notify name m) →
    ∃ j, j < i ∧ tr.get? j = some (Ev.created m)

/-- Whether an Except value is the error case. -/
def exceptIsError {ε α : Type} : Except ε α → Bool
  | .error _ => true
  | .ok _ => false

/-- The persist-then-publish contract of one send-path execution: every
publish is preceded by the successful persist of the same message, and a
failed persist means nothing was published and the caller got an error. -/
def sendPathOk {ε α : Type} (p : List Ev × Except ε α) : Prop :=
  publishAfterPersist p.1
  ∧ (Ev.createFailed ∈ p.1 →
      (∀ name m, Ev.notify name m ∉ p.1) ∧ exceptIsError p.2 = true)

/-- A trace without publish events satisfies publishAfterPersist vacuously. -/
theorem publishAfterPersist_of_not_mem (tr : List Ev)
    (h : ∀ name m, Ev.notify name m ∉ tr) : publishAfterPersist tr := by
  intro i name m hi
  exact absurd (List.get?_mem hi) (h name m)

/-- A trace of the success shape, a publish-free prefix followed by the
persist call, its success and the publish of the persisted message,
satisfies publishAfterPersist. -/
theorem publishAfterPersist_append (pre : List Ev) (cm : CreateMessage)
    (m : Message) (name : String) (h : ∀ n m2, Ev.notify n m2 ∉ pre) :
    publishAfterPersist (pre ++ [Ev.create cm, Ev.created m, Ev.notify name m]) := by
  intro i n m2 hi
  by_cases hlt : i < pre.length
  · rw [List.get?_append hlt] at hi
    exact absurd (List.get?_mem hi) (h n m2)
  · push_neg at hlt
    rw [List.get?_append_right hlt] at hi
    rcases hk : i - pre.length with _ | _ | _ | k
    · rw [hk] at hi
      simp at hi
    · rw [hk] at hi
      simp at hi
    · rw [hk] at hi
      simp at hi
      refine ⟨pre.length + 1, by omega, ?_⟩
      rw [List.get?_append_right (by omega)]
      simp [hi]
    · rw [hk] at hi
      simp [List.get?] at hi

/-- C1: on both send paths, the send_message tool and POST agent message, a
message is published to the session manager only after the message-store
create returned success for that same message, and when create fails nothing
is published and the caller receives an error. -/
theorem send_persist_then_publish (env : StoreEnv) (req : AgentMessageRequest)
    (args : Json) :
    sendPathOk (agent_message env req) ∧ sendPathOk (tool_send_message env args) := by
  constructor
  · unfold agent_message
    repeat' split
    all_goals refine ⟨?_, ?_⟩
    all_goals first
      | (apply publishAfterPersist_of_not_mem; simp [mem_markTrace]; done)
      | (apply publishAfterPersist_append; simp [mem_markTrace]; done)
      | (intro hmem; refine ⟨?_, rfl⟩; simp [mem_markTrace]; done)
      | (intro hmem; simp [mem_markTrace] at hmem; done)
  · unfold tool_send_message
    repeat' split
    all_goals refine ⟨?_, ?_⟩
    all_goals first
      | (apply publishAfterPersist_of_not_mem; simp [mem_markTrace]; done)
      | (apply publishAfterPersist_append; simp [mem_markTrace]; done)
      | (intro hmem; refine ⟨?_, rfl⟩; simp [mem_markTrace]; done)
      | (intro hmem; simp [mem_markTrace] at hmem; done)

/-- A fixed environment for witnesses: every name resolves to an agent, the
message store echoes the creation parameters under a fresh id, and one
receiver is attached under the name beta. -/
def envW : StoreEnv :=
  { getByName := fun n =>
      .ok { id := 1, name := n, description := "", registered_at := 0, last_seen_at := 0 },
    createMessage := fun cm =>
      .ok { id := 7, sender_id := cm.sender_id, recipient_id := cm.recipient_id,
            task_id := cm.task_id, content := cm.content, created_at := 0 },
    createTask := fun ct =>
      .ok { id := 9, title := ct.title, created_by := ct.created_by,
            time_budget_secs := ct.time_budget_secs, started_at := none, created_at := 0 },
    markStarted := fun _ => .ok (),
    getStatus := fun i => .error (.taskNotFound i),
    listAgents := .ok [],
    queryMessages := fun _ => .ok [],
    sessions := [("beta", 1)] }

/-- A concrete relay request used by witnesses. -/
def reqW : AgentMessageRequest :=
  { fromName := "alpha", toName := "beta", content := "hi", task_id := none }

/-- Witness for C1: the persist-then-publish contract instantiated on a
concrete environment, relay request and tool argument object. -/
theorem send_persist_then_publish_witness :
    sendPathOk (agent_message envW reqW)
    ∧ sendPathOk
        (tool_send_message envW
          (Json.obj [("to", Json.str "beta"), ("content", Json.str "hi")])) :=
  send_persist_then_publish envW reqW
    (Json.obj [("to", Json.str "beta"), ("content", Json.str "hi")])

/-- MockAgentRegistry::register (tests/mock_stores.rs): the registry is a map
from name to agent; when the name is already present the existing agent is
returned unchanged, otherwise a new agent is inserted under a fresh id with
both timestamps set to now. Returns the agent together with the new state. -/
def mockRegister (agents : List (String × Agent)) (params : RegisterAgent)
    (freshId : Nat) (now : Int) : Agent × List (String × Agent) :=
  match mapGet agents params.name with
  | some existing => (existing, agents)
  | none =>
    let a : Agent := { id := freshId, name := params.name,
                       description := params.description, registered_at := now,
                       last_seen_at := now }
    (a, (params.name, a) :: agents)

/-- PgStore::register (meddler-store/src/postgres.rs): the INSERT with ON
CONFLICT(name) DO UPDATE SET description, last_seen_at = NOW() RETURNING row.
On a name conflict the stored row keeps its id and registered_at but takes
the new description and last_seen_at; otherwise a fresh row is inserted.
Returns the RETURNING row together with the new table state. -/
def pgRegister (agents : List (String × Agent)) (params : RegisterAgent)
    (freshId : Nat) (now : Int) : Agent × List (String × Agent) :=
  match mapGet agents params.name with
  | some existing =>
    let a : Agent := { existing with
                       description := params.description,
                       last_seen_at := now }
    (a, agents.map (fun kv => if kv.1 = params.name then (kv.1, a) else kv))
  | none =>
    let a : Agent := { id := freshId, name := params.name,
                       description := params.description, registered_at := now,
                       last_seen_at := now }
    (a, (params.name, a) :: agents)

/-- First registration of name a with description d1. -/
def d1Reg : RegisterAgent := { name := "a", description := "d1" }

/-- Re-registration of name a with description d2. -/
def d2Reg : RegisterAgent := { name := "a", description := "d2" }

/-- C2: evaluating register(a, d1) then register(a, d2) on both registry
implementations: both return the same id on the second call, but the mock
registry leaves the stored description at d1 where the claim and the
Postgres upsert give d2 - the mock answers the collision with the existing
agent and never refreshes the description. -/
theorem register_description_refresh_bug :
    ((mockRegister (mockRegister [] d1Reg 1 0).2 d2Reg 2 1).1.id
        = (mockRegister [] d1Reg 1 0).1.id)
    ∧ ((mapGet (mockRegister (mockRegister [] d1Reg 1 0).2 d2Reg 2 1).2 "a").map
        Agent.description = some "d1")
    ∧ (some "d1" ≠ some "d2")
    ∧ ((pgRegister (pgRegister [] d1Reg 1 0).2 d2Reg 2 1).1.id
        = (pgRegister [] d1Reg 1 0).1.id)
    ∧ ((mapGet (pgRegister (pgRegister [] d1Reg 1 0).2 d2Reg 2 1).2 "a").map
        Agent.description = some "d2") := by
  refine ⟨?_, ?_, ?_, ?_, ?_⟩ <;> decide

/-- MockTaskStore::mark_started (tests/mock_stores.rs) and the PgStore UPDATE
tasks SET started_at = NOW() WHERE id = $1 AND started_at IS NULL: the entry
under the given id gets started_at set to now only when it is currently
unset; every other entry, and every other field, is untouched; a missing id
is a no-op. The store is the map from task id to task. -/
def markStartedStore (tasks : List (Nat × Task)) (id : Nat) (now : Int) :
    List (Nat × Task) :=
  tasks.map (fun kt =>
    if kt.1 = id ∧ kt.2.started_at = none then
      (kt.1, { kt.2 with started_at := some now })
    else kt)

/-- C9: mark_started modifies at most the started_at field of the task named
by the id: every entry of the updated store corresponds positionally to an
entry of the old store with the same key, with id, title, created_by,
time_budget_secs and created_at unchanged; entries under other keys are
fully unchanged; an already-set started_at is unchanged; and started_at is
either the old value or freshly set to now from unset on the addressed key. -/
theorem markStarted_frame (tasks : List (Nat × Task)) (id : Nat) (now : Int)
    (i : Nat) (k : Nat) (t : Task)
    (h : (markStartedStore tasks id now).get? i = some (k, t)) :
    ∃ t0, tasks.get? i = some (k, t0)
      ∧ t.id = t0.id ∧ t.title = t0.title ∧ t.created_by = t0.created_by
      ∧ t.time_budget_secs = t0.time_budget_secs ∧ t.created_at = t0.created_at
      ∧ (k ≠ id → t = t0)
      ∧ (∀ s, t0.started_at = some s → t.started_at = some s)
      ∧ (t.started_at = t0.started_at
          ∨ (k = id ∧ t0.started_at = none ∧ t.started_at = some now)) := by
  rw [markStartedStore, List.get?_map] at h
  cases h0 : tasks.get? i with
  | none => rw [h0] at h; simp at h
  | some kt =>
    obtain ⟨k0, t0⟩ := kt
    rw [h0] at h
    have h2 : (if k0 = id ∧ t0.started_at = none
        then (k0, { t0 with started_at := some now }) else (k0, t0)) = (k, t) := by
      simpa using h
    by_cases hc : k0 = id ∧ t0.started_at = none
    · rw [if_pos hc] at h2
      injection h2 with hk ht
      subst hk
      subst ht
      refine ⟨t0, rfl, ?_⟩
      simp [hc.1, hc.2]
    · rw [if_neg hc] at h2
      injection h2 with hk ht
      subst hk
      subst ht
      refine ⟨t0, rfl, ?_⟩
      simp

/-- Concrete unstarted task keyed under id 5, used to witness C9. -/
def c9Task : Task :=
  { id := 5, title := "m", created_by := 1, time_budget_secs := none,
    started_at := none, created_at := 0 }

/-- The same task after mark_started at time 1000. -/
def c9Started : Task := { c9Task with started_at := some 1000 }

/-- Witness for C9 at a concrete input: a one-entry store whose task starts
unset, marked at time 1000. -/
theorem markStarted_frame_witness :
    ∃ t0, ([(5, c9Task)] : List (Nat × Task)).get? 0 = some (5, t0)
      ∧ c9Started.id = t0.id ∧ c9Started.title = t0.title
      ∧ c9Started.created_by = t0.created_by
      ∧ c9Started.time_budget_secs = t0.time_budget_secs
      ∧ c9Started.created_at = t0.created_at
      ∧ ((5 : Nat) ≠ 5 → c9Started = t0)
      ∧ (∀ s, t0.started_at = some s → c9Started.started_at = some s)
      ∧ (c9Started.started_at = t0.started_at
          ∨ ((5 : Nat) = 5 ∧ t0.started_at = none
              ∧ c9Started.started_at = some 1000)) :=
  markStarted_frame [(5, c9Task)] 5 1000 0 5 c9Started rfl

/-- C10: a relay POST whose from and to both resolve to the same registered
agent succeeds (the Ok result is the 200 body with message_id and the
delivered flag), the message persisted by the message-store create carries
sender_id equal to recipient_id, and delivered is true exactly when that
agent has a channel with at least one live receiver at publish time. The
store-contract hypotheses say the created message echoes the requested
sender and recipient, as both store implementations do. -/
theorem agent_message_self_send (env : StoreEnv) (req : AgentMessageRequest)
    (a : Agent) (m : Message)
    (hreg : env.getByName req.toName = Except.ok a)
    (hself : req.fromName = req.toName)
    (htask : req.task_id = none)
    (hcreate : env.createMessage (relayCreate a a none req.content) = Except.ok m)
    (hsender : m.sender_id = a.id) (hrecipient : m.recipient_id = a.id) :
    (agent_message env req).2
      = Except.ok (Json.obj [("message_id", Json.str (toString m.id)),
          ("delivered", Json.bool (SessionManager.notify env.sessions req.toName m))])
    ∧ Ev.created m ∈ (agent_message env req).1
    ∧ m.sender_id = m.recipient_id
    ∧ (SessionManager.notify env.sessions req.toName m = true
        ↔ ∃ receivers, mapGet env.sessions req.toName = some receivers
            ∧ 1 ≤ receivers) := by
  have hfrom : env.getByName req.fromName = Except.ok a := by
    rw [hself]
    exact hreg
  refine ⟨?_, ?_, ?_, ?_⟩
  · simp [agent_message, hfrom, hreg, htask, parseTaskArg, hcreate, markTrace, hself]
  · simp [agent_message, hfrom, hreg, htask, parseTaskArg, hcreate, markTrace, hself]
  · rw [hsender, hrecipient]
  · cases hmg : mapGet env.sessions req.toName with
    | none => simp [SessionManager.notify, hmg]
    | some n => simp [SessionManager.notify, hmg]

/-- Concrete self-send request used to witness C10. -/
def reqSelf : AgentMessageRequest :=
  { fromName := "beta", toName := "beta", content := "x", task_id := none }

/-- The agent both ends of the self-send resolve to under envW. -/
def agentBeta : Agent :=
  { id := 1, name := "beta", description := "", registered_at := 0, last_seen_at := 0 }

/-- The message envW persists for the self-send. -/
def msgSelf : Message :=
  { id := 7, sender_id := 1, recipient_id := 1, task_id := none, content := "x",
    created_at := 0 }

/-- Witness for C10: the self-send conclusion at the concrete environment. -/
theorem agent_message_self_send_witness :
    (agent_message envW reqSelf).2
      = Except.ok (Json.obj [("message_id", Json.str (toString msgSelf.id)),
          ("delivered",
            Json.bool (SessionManager.notify envW.sessions reqSelf.toName msgSelf))])
    ∧ Ev.created msgSelf ∈ (agent_message envW reqSelf).1
    ∧ msgSelf.sender_id = msgSelf.recipient_id
    ∧ (SessionManager.notify envW.sessions reqSelf.toName msgSelf = true
        ↔ ∃ receivers, mapGet envW.sessions reqSelf.toName = some receivers
            ∧ 1 ≤ receivers) :=
  agent_message_self_send envW reqSelf agentBeta msgSelf rfl rfl rfl rfl rfl rfl

/-- JSON-RPC 2.0 request (meddler-mcp/src/jsonrpc.rs JsonRpcRequest): the id
field has type Value with no serde default, so it is required; params has a
serde default and is optional. -/
structure JsonRpcRequest where
  jsonrpc : String
  id : Json
  method : String
  params : Option Json
deriving Repr

/-- JSON-RPC 2.0 error object (meddler-mcp/src/jsonrpc.rs JsonRpcError). -/
structure JsonRpcError where
  code : Int
  message : String
  data : Option Json
deriving Repr

/-- JSON-RPC 2.0 response (meddler-mcp/src/jsonrpc.rs JsonRpcResponse). -/
structure JsonRpcResponse where
  jsonrpc : String
  id : Json
  result : Option Json
  error : Option JsonRpcError
deriving Repr

/-- JsonRpcResponse::success. -/
def JsonRpcResponse.success (id : Json) (result : Json) : JsonRpcResponse :=
  { jsonrpc := "2.0", id := id, result := some result, error := none }

/-- JsonRpcResponse::error (named mkError here because error is the field). -/
def JsonRpcResponse.mkError (id : Json) (code : Int) (message : String) :
    JsonRpcResponse :=
  { jsonrpc := "2.0", id := id, result := none,
    error := some { code := code, message := message, data := none } }

/-- Standard JSON-RPC error codes (meddler-mcp/src/jsonrpc.rs). -/
def PARSE_ERROR : Int := -32700

/-- Invalid request code. -/
def INVALID_REQUEST : Int := -32600

/-- Method not found code. -/
def METHOD_NOT_FOUND : Int := -32601

/-- Invalid params code. -/
def INVALID_PARAMS : Int := -32602

/-- Internal error code. -/
def INTERNAL_ERROR : Int := -32603

/-- Serialisation of an optional value, serde style: None becomes null. -/
def optJson : Option Json → Json
  | none => Json.null
  | some j => j

/-- serde serialisation of a Message (timestamps and uuids rendered through
their numeric models; uuids as their decimal text). -/
def messageToJson (m : Message) : Json :=
  Json.obj [("id", Json.str (toString m.id)),
    ("sender_id", Json.str (toString m.sender_id)),
    ("recipient_id", Json.str (toString m.recipient_id)),
    ("task_id", optJson (m.task_id.map (fun t => Json.str (toString t)))),
    ("content", Json.str m.content),
    ("created_at", Json.num m.created_at)]

/-- serde serialisation of a Task. -/
def taskToJson (t : Task) : Json :=
  Json.obj [("id", Json.str (toString t.id)),
    ("title", Json.str t.title),
    ("created_by", Json.str (toString t.created_by)),
    ("time_budget_secs", optJson (t.time_budget_secs.map Json.num)),
    ("started_at", optJson (t.started_at.map Json.num)),
    ("created_at", Json.num t.created_at)]

/-- serde serialisation of a TaskStatus. -/
def taskStatusToJson (st : TaskStatus) : Json :=
  Json.obj [("task", taskToJson st.task),
    ("elapsed_secs", optJson (st.elapsed_secs.map Json.num)),
    ("remaining_secs", optJson (st.remaining_secs.map Json.num))]

mutual

/-- Compact JSON text rendering, model of serde_json to_string_pretty up to
whitespace and string escaping, which no embedded claim inspects. -/
def renderJson : Json → String
  | .null => "null"
  | .bool b => if b then "true" else "false"
  | .num n => toString n
  | .str s => "\"" ++ s ++ "\""
  | .arr xs => "[" ++ renderList xs ++ "]"
  | .obj fs => "\x7b" ++ renderFields fs ++ "\x7d"

/-- Render a JSON array body. -/
def renderList : List Json → String
  | [] => ""
  | [x] => renderJson x
  | x :: y :: rest => renderJson x ++ "," ++ renderList (y :: rest)

/-- Render a JSON object body. -/
def renderFields : List (String × Json) → String
  | [] => ""
  | [kv] => "\"" ++ kv.1 ++ "\":" ++ renderJson kv.2
  | kv :: kv2 :: rest =>
    "\"" ++ kv.1 ++ "\":" ++ renderJson kv.2 ++ "," ++ renderFields (kv2 :: rest)

end

/-- The list_agents tool (handlers/mcp.rs tool_list_agents): list the
registry, skip the orchestrator pseudo-agent, and report each agent with its
connected flag taken from the session manager at call time. -/
def tool_list_agents (env : StoreEnv) : Except String Json :=
  match env.listAgents with
  | .error e => .error (errString e)
  | .ok agents =>
    .ok (Json.obj [("agents", Json.arr (agents.filterMap (fun a =>
      if a.name = orchestratorName then none
      else some (Json.obj [("name", Json.str a.name),
        ("description", Json.str a.description),
        ("connected", Json.bool (SessionManager.isConnected env.sessions a.name))]))))])

/-- Resolution of an optional agent-name argument to an agent id, as the
get_messages tool does for sender and recipient. -/
def resolveOptAgent (env : StoreEnv) : Option String → Except String (Option Nat)
  | none => .ok none
  | some nm =>
    match env.getByName nm with
    | .error e => .error ("not found: " ++ errString e)
    | .ok a => .ok (some a.id)

/-- The get_messages tool (handlers/mcp.rs tool_get_messages): parse the
optional task_id, resolve the optional sender and recipient names, and query
the message store with the ANDed filter. -/
def tool_get_messages (env : StoreEnv) (args : Json) : Except String Json :=
  match parseTaskArg ((args.get "task_id").bind Json.asStr) with
  | .error msg => .error msg
  | .ok task_id =>
    match resolveOptAgent env ((args.get "sender").bind Json.asStr) with
    | .error e => .error e
    | .ok sender_id =>
      match resolveOptAgent env ((args.get "recipient").bind Json.asStr) with
      | .error e => .error e
      | .ok recipient_id =>
        match env.queryMessages { task_id := task_id, sender_id := sender_id,
                                  recipient_id := recipient_id } with
        | .error e => .error (errString e)
        | .ok msgs => .ok (Json.obj [("messages", Json.arr (msgs.map messageToJson))])

/-- The create_task tool (handlers/mcp.rs tool_create_task): require the
title string argument, read the optional integer budget, resolve the
orchestrator as creator, and create the task. -/
def tool_create_task (env : StoreEnv) (args : Json) : Except String Json :=
  match (args.get "title").bind Json.asStr with
  | none => .error "Missing title parameter"
  | some title =>
    match env.getByName orchestratorName with
    | .error e => .error (errString e)
    | .ok creator =>
      match env.createTask { title := title, created_by := creator.id,
                             time_budget_secs := (args.get "time_budget_secs").bind Json.asInt } with
      | .error e => .error (errString e)
      | .ok task =>
        .ok (Json.obj [("task_id", Json.str (toString task.id)),
          ("title", Json.str task.title)])

/-- The get_task_status tool (handlers/mcp.rs tool_get_task_status): require
the task_id string argument, parse it as a uuid, and fetch the computed
status from the task store. -/
def tool_get_task_status (env : StoreEnv) (args : Json) : Except String Json :=
  match (args.get "task_id").bind Json.asStr with
  | none => .error "Missing task_id parameter"
  | some s =>
    match parseUuid s with
    | none => .error "Invalid task_id"
    | some id =>
      match env.getStatus id with
      | .error e => .error (errString e)
      | .ok status => .ok (taskStatusToJson status)

/-- handle_tools_call (handlers/mcp.rs): params must be present or the
response is the invalid-params error; the tool name defaults to the empty
string and the arguments object to an empty object; the named tool runs and
an Ok value is wrapped in the MCP text-content envelope while an Err string
becomes a JSON-RPC error with the internal-error code. -/
def handle_tools_call (env : StoreEnv) (req : JsonRpcRequest) : JsonRpcResponse :=
  match req.params with
  | none => JsonRpcResponse.mkError req.id INVALID_PARAMS "Missing params"
  | some params =>
    match (match ((params.get "name").bind Json.asStr).getD "" with
      | "list_agents" => tool_list_agents env
      | "send_message" =>
        (tool_send_message env ((params.get "arguments").getD (Json.obj []))).2
      | "get_messages" =>
        tool_get_messages env ((params.get "arguments").getD (Json.obj []))
      | "create_task" =>
        tool_create_task env ((params.get "arguments").getD (Json.obj []))
      | "get_task_status" =>
        tool_get_task_status env ((params.get "arguments").getD (Json.obj []))
      | other => .error ("Unknown tool: " ++ other)) with
    | .ok value =>
      JsonRpcResponse.success req.id
        (Json.obj [("content", Json.arr [Json.obj [("type", Json.str "text"),
          ("text", Json.str (renderJson value))]])])
    | .error err => JsonRpcResponse.mkError req.id INTERNAL_ERROR err

/-- An HTTP response: status code plus optional JSON body. -/
structure HttpResponse where
  status : Nat
  body : Option Json
deriving Repr

/-- The build version baked in at compile time. Modelled from the spec: the
serverInfo version is the build version; the workspace manifest that fixes
the number is not among the sources, so the value is a placeholder no claim
inspects. -/
def cargoPkgVersion : String := "0.1.0"

/-- serde serialisation of a JSON-RPC error object; the data field is
skipped when none. -/
def errorToJson (e : JsonRpcError) : Json :=
  Json.obj ([("code", Json.num e.code), ("message", Json.str e.message)]
    ++ (match e.data with
        | some v => [("data", v)]
        | none => []))

/-- serde serialisation of a JSON-RPC response; result and error are skipped
when none. -/
def responseToJson (r : JsonRpcResponse) : Json :=
  Json.obj ([("jsonrpc", Json.str r.jsonrpc), ("id", r.id)]
    ++ (match r.result with
        | some v => [("result", v)]
        | none => [])
    ++ (match r.error with
        | some e => [("error", errorToJson e)]
        | none => []))

/-- serde Deserialize for JsonRpcRequest, per the derive on the struct:
jsonrpc, id and method are required (id has type Value with no serde
default, so a body without an id field is a hard deserialisation error);
params carries a serde default and an explicit null params deserialises to
None; unknown fields are ignored, non-objects are rejected. -/
def parseJsonRpcRequest (v : Json) : Except String JsonRpcRequest :=
  match v with
  | Json.obj _ =>
    match (v.get "jsonrpc").bind Json.asStr with
    | none => .error "missing or invalid field jsonrpc"
    | some jr =>
      match v.get "id" with
      | none => .error "missing field id"
      | some idv =>
        match (v.get "method").bind Json.asStr with
        | none => .error "missing or invalid field method"
        | some m =>
          .ok { jsonrpc := jr, id := idv, method := m,
                params := match v.get "params" with
                  | none => none
                  | some Json.null => none
                  | some p => some p }
  | _ => .error "invalid type: expected object"

/-- The static tool catalogue (meddler-mcp/src/tools.rs ToolRegistry), as the
serialised tools/list payload. -/
def toolDefinitionsJson : Json :=
  Json.arr [
    Json.obj [("name", Json.str "list_agents"),
      ("description", Json.str "List all registered agents and their descriptions."),
      ("inputSchema", Json.obj [("type", Json.str "object"),
        ("properties", Json.obj []), ("required", Json.arr [])])],
    Json.obj [("name", Json.str "send_message"),
      ("description", Json.str "Send a message to a specific agent by name. Returns the message ID. The response will arrive via SSE notification."),
      ("inputSchema", Json.obj [("type", Json.str "object"),
        ("properties", Json.obj [
          ("to", Json.obj [("type", Json.str "string"),
            ("description", Json.str "Name of the recipient agent")]),
          ("content", Json.obj [("type", Json.str "string"),
            ("description", Json.str "Message content to send")]),
          ("task_id", Json.obj [("type", Json.str "string"),
            ("description", Json.str "Optional task ID to group related messages")])]),
        ("required", Json.arr [Json.str "to", Json.str "content"])])],
    Json.obj [("name", Json.str "get_messages"),
      ("description", Json.str "Retrieve message history with optional filters."),
      ("inputSchema", Json.obj [("type", Json.str "object"),
        ("properties", Json.obj [
          ("task_id", Json.obj [("type", Json.str "string"),
            ("description", Json.str "Filter by task ID")]),
          ("sender", Json.obj [("type", Json.str "string"),
            ("description", Json.str "Filter by sender agent name")]),
          ("recipient", Json.obj [("type", Json.str "string"),
            ("description", Json.str "Filter by recipient agent name")])]),
        ("required", Json.arr [])])],
    Json.obj [("name", Json.str "create_task"),
      ("description", Json.str "Create a new task to group related messages. Optionally set a time budget in seconds."),
      ("inputSchema", Json.obj [("type", Json.str "object"),
        ("properties", Json.obj [
          ("title", Json.obj [("type", Json.str "string"),
            ("description", Json.str "Title of the task")]),
          ("time_budget_secs", Json.obj [("type", Json.str "integer"),
            ("description", Json.str "Optional time budget in seconds (e.g., 28800 for 8 hours)")])]),
        ("required", Json.arr [Json.str "title"])])],
    Json.obj [("name", Json.str "get_task_status"),
      ("description", Json.str "Get the status of a task, including elapsed and remaining time."),
      ("inputSchema", Json.obj [("type", Json.str "object"),
        ("properties", Json.obj [
          ("task_id", Json.obj [("type", Json.str "string"),
            ("description", Json.str "The task ID to check")])]),
        ("required", Json.arr [Json.str "task_id"])])]]

/-- The initialize method handler (handlers/mcp.rs): the fixed protocol
handshake result. -/
def handleInitRpc (req : JsonRpcRequest) : JsonRpcResponse :=
  JsonRpcResponse.success req.id
    (Json.obj [("protocolVersion", Json.str "2024-11-05"),
      ("capabilities", Json.obj [("tools", Json.obj [])]),
      ("serverInfo", Json.obj [("name", Json.str "meddler"),
        ("version", Json.str cargoPkgVersion)])])

/-- The tools/list handler (handlers/mcp.rs handle_tools_list). -/
def handle_tools_list (req : JsonRpcRequest) : JsonRpcResponse :=
  JsonRpcResponse.success req.id (Json.obj [("tools", toolDefinitionsJson)])

/-- mcp_request (handlers/mcp.rs), after successful body extraction: a null
id is a notification answered 202 with empty body; the notifications/initialized
method is answered 202 regardless of id; otherwise the method dispatches to
the handshake, the tool listing, the tool call, or the method-not-found
error, and the JSON-RPC response is returned as the 200 JSON body. The
idempotent orchestrator pre-registration is fire-and-forget in the source
(its result is ignored) and touches no state the claims inspect. -/
def mcp_request (env : StoreEnv) (req : JsonRpcRequest) : HttpResponse :=
  if req.id.isNull then { status := 202, body := none }
  else if req.method = "notifications/initialized" then { status := 202, body := none }
  else
    { status := 200,
      body := some (responseToJson (match req.method with
        | "initialize" => handleInitRpc req
        | "tools/list" => handle_tools_list req
        | "tools/call" => handle_tools_call env req
        | _ => JsonRpcResponse.mkError req.id METHOD_NOT_FOUND "Method not found")) }

/-- The full POST endpoint, Json extraction included: the axum Json extractor
deserialises the body as a JsonRpcRequest and rejects a failing body with
the 422 unprocessable-entity client error before the handler runs (its text
body is not modelled); an accepted body reaches mcp_request. -/
def mcpRequestHttp (env : StoreEnv) (body : Json) : HttpResponse :=
  match parseJsonRpcRequest body with
  | .error _ => { status := 422, body := none }
  | .ok req => mcp_request env req

/-- A JSON-RPC body with no id field at all (the repo test
mcp_notification_returns_accepted posts exactly this shape). -/
def noIdBody : Json :=
  Json.obj [("jsonrpc", Json.str "2.0"),
    ("method", Json.str "notifications/initialized")]

/-- The same notification with id explicitly null. -/
def nullIdBody : Json :=
  Json.obj [("jsonrpc", Json.str "2.0"), ("id", Json.null),
    ("method", Json.str "notifications/initialized")]

/-- C6: a body with id null is answered 202 with empty body, but a body with
the id field absent never reaches the handler: JsonRpcRequest requires id
(a Value field with no serde default), so deserialisation fails and the Json
extractor rejects the POST with the 422 client error instead of 202. -/
theorem notification_missing_id_bug :
    parseJsonRpcRequest noIdBody = Except.error "missing field id"
    ∧ (mcpRequestHttp envW noIdBody).status = 422
    ∧ (mcpRequestHttp envW noIdBody).status ≠ 202
    ∧ (mcpRequestHttp envW nullIdBody).status = 202
    ∧ (mcpRequestHttp envW nullIdBody).body = none := by
  refine ⟨rfl, rfl, ?_, rfl, rfl⟩
  decide

/-- An event on a session channel (session.rs SseEvent): either a message
from another agent or a raw JSON-RPC value for the MCP stream. -/
inductive SseEvent where
  | agentMessage : Message → SseEvent
  | jsonRpc : Json → SseEvent
deriving Repr

/-- One emitted server-sent event: its event type and its data payload (the
endpoint handshake carries a plain path string, modelled as a JSON string). -/
structure SseOut where
  event : String
  data : Json
deriving Repr

/-- The payload mcp_sse serialises for a received event: the handler
dereferences every received value as the agent-message payload (its *msg
deref is written for the Arc Message payload and has no separate arm for
the JsonRpc variant of session.rs SseEvent). -/
def sseEventPayload : SseEvent → Json
  | .agentMessage m => messageToJson m
  | .jsonRpc v => v

/-- The per-event mapping of mcp_sse (handlers/mcp.rs): every received event
becomes an SSE message event whose data is the JSON-RPC notification
wrapper around the payload. -/
def mcpSseEvent (e : SseEvent) : SseOut :=
  { event := "message",
    data := Json.obj [("jsonrpc", Json.str "2.0"),
      ("method", Json.str "notifications/message"),
      ("params", Json.obj [("message", sseEventPayload e)])] }

/-- The GET /mcp/sse stream (handlers/mcp.rs mcp_sse): the initial endpoint
handshake event with data /mcp/sse, then the mapped broadcast events. -/
def mcpSseStream (events : List SseEvent) : List SseOut :=
  { event := "endpoint", data := Json.str "/mcp/sse" } :: events.map mcpSseEvent

/-- A JSON-RPC response value published on the orchestrator channel. -/
def rpcVal : Json :=
  Json.obj [("jsonrpc", Json.str "2.0"), ("id", Json.num 1),
    ("result", Json.obj [])]

/-- C7: the first emitted event is the endpoint handshake as claimed, but a
JSON-RPC event is not serialised as-is: mcp_sse wraps it in the same
notifications/message envelope it uses for agent messages, so the emitted
data is the wrapper and differs from the value itself. -/
theorem mcp_sse_wraps_jsonrpc_bug :
    (mcpSseStream [SseEvent.jsonRpc rpcVal]).get? 0
        = some { event := "endpoint", data := Json.str "/mcp/sse" }
    ∧ ((mcpSseStream [SseEvent.jsonRpc rpcVal]).get? 1).map SseOut.data
        = some (Json.obj [("jsonrpc", Json.str "2.0"),
            ("method", Json.str "notifications/message"),
            ("params", Json.obj [("message", rpcVal)])])
    ∧ ((mcpSseStream [SseEvent.jsonRpc rpcVal]).get? 1).map SseOut.data
        ≠ some rpcVal := by
  refine ⟨rfl, rfl, ?_⟩
  simp [mcpSseStream, mcpSseEvent, sseEventPayload, rpcVal]

/-- A tools/call request for send_message with an empty arguments object,
so the required to argument is missing. -/
def c5Req : JsonRpcRequest :=
  { jsonrpc := "2.0", id := Json.num 1, method := "tools/call",
    params := some (Json.obj [("name", Json.str "send_message"),
      ("arguments", Json.obj [])]) }

/-- C5 counterexample: a tools/call with invalid input (send_message missing
its required to argument) is answered with error code -32603, the
internal-error code every tool-level Err is mapped to, not -32602. -/
theorem invalid_args_code_counterexample :
    ((handle_tools_call envW c5Req).error).map JsonRpcError.code = some (-32603)
    ∧ ((handle_tools_call envW c5Req).error).map JsonRpcError.code
        ≠ some (-32602) := by
  have h : ((handle_tools_call envW c5Req).error).map JsonRpcError.code
      = some (-32603) := rfl
  refine ⟨h, ?_⟩
  rw [h]
  decide

/-- Value::as_str on a JSON string yields that string. -/
theorem Json.asStr_str (s : String) : (Json.str s).asStr = some s := rfl

/-- C5 amended: for tools/call, invalid tool input (a missing required
argument such as to or task_id, or a malformed uuid in task_id) produces a
JSON-RPC error with code -32603; the -32602 invalid-params code is produced
exactly when the request carries no params at all. -/
theorem invalid_args_code_amended (env : StoreEnv) (req : JsonRpcRequest)
    (p args : Json) (s : String) :
    (req.params = none →
      ((handle_tools_call env req).error).map JsonRpcError.code = some (-32602))
    ∧ (req.params = some p → p.get "name" = some (Json.str "send_message") →
        p.get "arguments" = some args → (args.get "to").bind Json.asStr = none →
        ((handle_tools_call env req).error).map JsonRpcError.code = some (-32603))
    ∧ (req.params = some p → p.get "name" = some (Json.str "get_task_status") →
        p.get "arguments" = some args →
        (args.get "task_id").bind Json.asStr = none →
        ((handle_tools_call env req).error).map JsonRpcError.code = some (-32603))
    ∧ (req.params = some p → p.get "name" = some (Json.str "get_task_status") →
        p.get "arguments" = some args →
        (args.get "task_id").bind Json.asStr = some s → parseUuid s = none →
        ((handle_tools_call env req).error).map JsonRpcError.code = some (-32603)) := by
  refine ⟨?_, ?_, ?_, ?_⟩
  · intro hp
    simp [handle_tools_call, hp, INVALID_PARAMS, JsonRpcResponse.mkError]
  · intro hp hname hargs hto
    simp [handle_tools_call, hp, hname, hargs, tool_send_message, hto,
      INTERNAL_ERROR, JsonRpcResponse.mkError, Json.asStr_str, Option.getD]
  · intro hp hname hargs htid
    simp [handle_tools_call, hp, hname, hargs, tool_get_task_status, htid,
      INTERNAL_ERROR, JsonRpcResponse.mkError, Json.asStr_str, Option.getD]
  · intro hp hname hargs htid hu
    simp [handle_tools_call, hp, hname, hargs, tool_get_task_status, htid, hu,
      INTERNAL_ERROR, JsonRpcResponse.mkError, Json.asStr_str, Option.getD]

/-- A tools/call request with no params at all. -/
def c5NoParams : JsonRpcRequest :=
  { jsonrpc := "2.0", id := Json.num 2, method := "tools/call", params := none }

/-- A tools/call request for get_task_status with no task_id argument. -/
def c5NoTask : JsonRpcRequest :=
  { jsonrpc := "2.0", id := Json.num 3, method := "tools/call",
    params := some (Json.obj [("name", Json.str "get_task_status"),
      ("arguments", Json.obj [])]) }

/-- A tools/call request for get_task_status with a malformed task_id. -/
def c5BadUuid : JsonRpcRequest :=
  { jsonrpc := "2.0", id := Json.num 4, method := "tools/call",
    params := some (Json.obj [("name", Json.str "get_task_status"),
      ("arguments", Json.obj [("task_id", Json.str "zzz")])]) }

/-- Witness for the amended C5: the four cases at concrete requests. -/
theorem invalid_args_code_amended_witness :
    (((handle_tools_call envW c5NoParams).error).map JsonRpcError.code
        = some (-32602))
    ∧ (((handle_tools_call envW c5Req).error).map JsonRpcError.code
        = some (-32603))
    ∧ (((handle_tools_call envW c5NoTask).error).map JsonRpcError.code
        = some (-32603))
    ∧ (((handle_tools_call envW c5BadUuid).error).map JsonRpcError.code
        = some (-32603)) := by
  refine ⟨?_, ?_, ?_, ?_⟩
  · exact (invalid_args_code_amended envW c5NoParams Json.null Json.null "").1 rfl
  · exact (invalid_args_code_amended envW c5Req
      (Json.obj [("name", Json.str "send_message"), ("arguments", Json.obj [])])
      (Json.obj []) "").2.1 rfl rfl rfl rfl
  · exact (invalid_args_code_amended envW c5NoTask
      (Json.obj [("name", Json.str "get_task_status"), ("arguments", Json.obj [])])
      (Json.obj []) "").2.2.1 rfl rfl rfl rfl
  · exact (invalid_args_code_amended envW c5BadUuid
      (Json.obj [("name", Json.str "get_task_status"),
        ("arguments", Json.obj [("task_id", Json.str "zzz")])])
      (Json.obj [("task_id", Json.str "zzz")]) "zzz").2.2.2 rfl rfl rfl rfl
      (by decide)

end Meddler
